import Mathlib

/-!
Verification development for the Log-Analysis tool's two core engines:

* the band tracer (`Band_Combos_Analyzer/src/core/band_tracer.py`), and
* the combo verification engine
  (`DeviceSWAnalyzer/src/modules/combos/{models.py, analyzers/normalizer.py,
  analyzers/comparator.py, knowledge/reasoning_engine.py}`).

Python sets are modelled as `Finset ℕ`, dicts as association lists or total
functions, `Optional[T]` as `Option T`, and Python strings as `String`.
-/

namespace LogAnalysis

/-! ## Band tracer data model (band_tracer.py) -/

/-- `BandStatus` enum: status of a band at each stage. -/
inductive BandStatus
  | pass
  | fail
  | na
  | skipped
deriving DecidableEq, Repr, Fintype

/-- `FinalStatus` enum: final status of a band after all stages. -/
inductive FinalStatus
  | enabled
  | filtered
  | missing_in_pm
  | missing_in_ue
  | not_supported
  | anomaly
deriving DecidableEq, Repr, Fintype

/-- The seven pipeline stages (`BandTracer.STAGES`).  The first five are
filtering stages; `qxdm` and `ue_cap` are observation stages. -/
inductive Stage
  | rfc
  | hw_filter
  | carrier
  | generic
  | nv_pref
  | qxdm
  | ue_cap
deriving DecidableEq, Repr, Fintype

/-- The stage-name strings used as `result.stages` keys and `filtered_at`
values in the source. -/
def Stage.name : Stage → String
  | .rfc => "RFC"
  | .hw_filter => "HW_Filter"
  | .carrier => "Carrier"
  | .generic => "Generic"
  | .nv_pref => "NV_Pref"
  | .qxdm => "QXDM"
  | .ue_cap => "UE_Cap"

/-- Position of a stage in the fixed pipeline order. -/
def Stage.idx : Stage → ℕ
  | .rfc => 0
  | .hw_filter => 1
  | .carrier => 2
  | .generic => 3
  | .nv_pref => 4
  | .qxdm => 5
  | .ue_cap => 6

/-- Whether a stage is one of the five filtering stages (RFC, HW_Filter,
Carrier, Generic, NV_Pref) as opposed to an observation stage. -/
def Stage.isFiltering : Stage → Bool
  | .rfc => true
  | .hw_filter => true
  | .carrier => true
  | .generic => true
  | .nv_pref => true
  | .qxdm => false
  | .ue_cap => false

/-- `BandTraceResult`: the result of tracing a single band.  The Python
`stages` dict is total over the seven stage keys by the end of a trace, so it
is modelled as a total function.  `filtered_at` holds a stage-name string
exactly as in the source. -/
structure BandTraceResult where
  band_num : ℕ
  band_type : String
  stages : Stage → BandStatus
  final_status : FinalStatus
  filtered_at : Option String
  anomaly_reason : Option String

/-- The `BandTracer` ingestion state: the per-RAT band sets together with the
`doc_status[...].loaded` flags.  Fields that the LTE/NR traces never read
(GSM/WCDMA sets, MDB context data, `band_count`/`details` metadata) are
omitted; the `set_*` ingestion methods only overwrite these fields and flip
the corresponding loaded flag. -/
structure BandTracer where
  rfc_lte : Finset ℕ := ∅
  rfc_nr : Finset ℕ := ∅
  hw_lte : Finset ℕ := ∅
  hw_nr_sa : Finset ℕ := ∅
  hw_nr_nsa : Finset ℕ := ∅
  carrier_lte_excluded : Finset ℕ := ∅
  carrier_nr_sa_excluded : Finset ℕ := ∅
  carrier_nr_nsa_excluded : Finset ℕ := ∅
  generic_lte_excluded : Finset ℕ := ∅
  generic_nr_excluded : Finset ℕ := ∅
  nv_lte : Finset ℕ := ∅
  nv_nr_sa : Finset ℕ := ∅
  nv_nr_nsa : Finset ℕ := ∅
  nv_lte_base_present : Bool := false
  nv_lte_ext_present : Bool := false
  nv_nr_sa_present : Bool := false
  nv_nr_nsa_present : Bool := false
  qxdm_lte : Finset ℕ := ∅
  qxdm_nr_sa : Finset ℕ := ∅
  qxdm_nr_nsa : Finset ℕ := ∅
  ue_cap_lte : Finset ℕ := ∅
  ue_cap_nr : Finset ℕ := ∅
  ue_cap_nr_sa : Finset ℕ := ∅
  ue_cap_nr_nsa : Finset ℕ := ∅
  rfc_loaded : Bool := false
  hw_filter_loaded : Bool := false
  carrier_loaded : Bool := false
  generic_loaded : Bool := false
  nv_pref_loaded : Bool := false
  qxdm_loaded : Bool := false
  ue_cap_loaded : Bool := false

/-- The mutable `filtered` flag and `result.filtered_at` threaded through a
trace.  `filtered_at` is carried as a `Stage` and rendered to its name string
when the result record is built. -/
structure StepState where
  filtered : Bool
  filtered_at : Option Stage
deriving DecidableEq, Fintype

/-- One filtering-stage block of `trace_lte_band` / `trace_nr_band`.  Every
one of the five blocks has the shape

    if filtered: record SKIPPED
    elif not loaded: record N/A
    else: record PASS/FAIL from the stage's set check; on FAIL set
          filtered=True and filtered_at=this stage.

`check` is the stage's pass condition: `some true` for pass, `some false`
for fail, and `none` for the NV sub-range-absent case which records N/A even
though the document loaded.  (For the RFC block the source has no
filtered/skip branch, but the trace starts with `filtered = False`, so the
block is reproduced exactly.) -/
def applyStage (st : StepState) (stage : Stage) (loaded : Bool) (check : Option Bool) :
    BandStatus × StepState :=
  if st.filtered then (BandStatus.skipped, st)
  else if !loaded then (BandStatus.na, st)
  else
    match check with
    | none => (BandStatus.na, st)
    | some true => (BandStatus.pass, st)
    | some false => (BandStatus.fail, { filtered := true, filtered_at := some stage })

/-- An observation-stage block (QXDM / UE_Cap): not loaded gives N/A,
otherwise PASS/FAIL from the check; `check = none` is the UE-capability
sub-mode-empty case of `trace_nr_band`, which also records N/A. -/
def obsStage (loaded : Bool) (check : Option Bool) : BandStatus :=
  if !loaded then BandStatus.na
  else
    match check with
    | none => BandStatus.na
    | some true => BandStatus.pass
    | some false => BandStatus.fail

/-- `loaded`/`check` pair for one filtering stage. -/
structure FilterStageInput where
  loaded : Bool
  check : Option Bool
deriving DecidableEq, Fintype

/-- Statuses of the five filtering stages plus the final `StepState`. -/
structure FilterOutcome where
  rfcSt : BandStatus
  hwSt : BandStatus
  carSt : BandStatus
  genSt : BandStatus
  nvSt : BandStatus
  state : StepState
deriving DecidableEq, Fintype

/-- The five filtering-stage blocks of a trace, run in the fixed order
RFC → HW_Filter → Carrier → Generic → NV_Pref starting from
`filtered = False`. -/
def runFilterStages (rfc hw car gen nv : FilterStageInput) : FilterOutcome :=
  let s0 : StepState := { filtered := false, filtered_at := none }
  let r1 := applyStage s0 Stage.rfc rfc.loaded rfc.check
  let r2 := applyStage r1.2 Stage.hw_filter hw.loaded hw.check
  let r3 := applyStage r2.2 Stage.carrier car.loaded car.check
  let r4 := applyStage r3.2 Stage.generic gen.loaded gen.check
  let r5 := applyStage r4.2 Stage.nv_pref nv.loaded nv.check
  { rfcSt := r1.1, hwSt := r2.1, carSt := r3.1, genSt := r4.1, nvSt := r5.1,
    state := r5.2 }

/-- Assemble the `result.stages` dict from the filtering outcomes and the two
observation statuses. -/
def mkStages (o : FilterOutcome) (qx ue : BandStatus) : Stage → BandStatus :=
  fun s =>
    match s with
    | Stage.rfc => o.rfcSt
    | Stage.hw_filter => o.hwSt
    | Stage.carrier => o.carSt
    | Stage.generic => o.genSt
    | Stage.nv_pref => o.nvSt
    | Stage.qxdm => qx
    | Stage.ue_cap => ue

/-- `BandTracer._determine_final_status`, returning the final status together
with the `anomaly_reason` the method assigns on the result. -/
def determine_final_status (stages : Stage → BandStatus) (filtered : Bool) :
    FinalStatus × Option String :=
  let rfc_status := stages Stage.rfc
  let qxdm_status := stages Stage.qxdm
  let ue_cap_status := stages Stage.ue_cap
  if rfc_status = BandStatus.fail then
    if qxdm_status = BandStatus.pass ∨ ue_cap_status = BandStatus.pass then
      (FinalStatus.anomaly, some "Present in device logs but NOT in RFC")
    else
      (FinalStatus.not_supported, none)
  else if filtered = false ∧ qxdm_status = BandStatus.fail ∧ ue_cap_status ≠ BandStatus.na then
    (FinalStatus.missing_in_pm, some "Passed all config stages but missing in QXDM")
  else if filtered = false ∧ ue_cap_status = BandStatus.fail ∧ qxdm_status = BandStatus.pass then
    (FinalStatus.missing_in_ue, some "Present in QXDM but missing in UE Capability")
  else if filtered = false ∧ qxdm_status ≠ BandStatus.fail ∧ ue_cap_status ≠ BandStatus.fail then
    (FinalStatus.enabled, none)
  else if filtered then
    (FinalStatus.filtered, none)
  else
    (FinalStatus.enabled, none)

/-- `BandTracer.trace_lte_band`.  Stage conditions, in source order:
RFC and HW_Filter are allow-lists, Carrier and Generic are deny-lists, and
the NV_Pref check applies only when the NV item covering the band's
sub-range (B1-64 vs B65+) is present. -/
def trace_lte_band (t : BandTracer) (band : ℕ) : BandTraceResult :=
  let nv_applicable := if band ≤ 64 then t.nv_lte_base_present else t.nv_lte_ext_present
  let nvCheck : Option Bool :=
    if nv_applicable then some (decide (band ∈ t.nv_lte)) else none
  let o := runFilterStages
    { loaded := t.rfc_loaded, check := some (decide (band ∈ t.rfc_lte)) }
    { loaded := t.hw_filter_loaded, check := some (decide (band ∈ t.hw_lte)) }
    { loaded := t.carrier_loaded, check := some (!decide (band ∈ t.carrier_lte_excluded)) }
    { loaded := t.generic_loaded, check := some (!decide (band ∈ t.generic_lte_excluded)) }
    { loaded := t.nv_pref_loaded, check := nvCheck }
  let qxdmSt := obsStage t.qxdm_loaded (some (decide (band ∈ t.qxdm_lte)))
  let ueSt := obsStage t.ue_cap_loaded (some (decide (band ∈ t.ue_cap_lte)))
  let stages := mkStages o qxdmSt ueSt
  let fin := determine_final_status stages o.state.filtered
  { band_num := band, band_type := "LTE", stages := stages,
    final_status := fin.1,
    filtered_at := o.state.filtered_at.map Stage.name,
    anomaly_reason := fin.2 }

/-- `BandTracer.trace_nr_band`.  `mode` is the `'SA'`/`'NSA'` string argument;
the mode-specific sets are selected up front exactly as in the source.  The
NV_Pref block folds `not loaded or not nv_present` into one N/A condition,
and the UE_Cap block records N/A when the mode-specific UE-capability set is
empty. -/
def trace_nr_band (t : BandTracer) (band : ℕ) (mode : String) : BandTraceResult :=
  let hw_bands := if mode = "SA" then t.hw_nr_sa else t.hw_nr_nsa
  let carrier_excluded := if mode = "SA" then t.carrier_nr_sa_excluded else t.carrier_nr_nsa_excluded
  let qxdm_bands := if mode = "SA" then t.qxdm_nr_sa else t.qxdm_nr_nsa
  let nv_bands := if mode = "SA" then t.nv_nr_sa else t.nv_nr_nsa
  let nv_present := if mode = "SA" then t.nv_nr_sa_present else t.nv_nr_nsa_present
  let o := runFilterStages
    { loaded := t.rfc_loaded, check := some (decide (band ∈ t.rfc_nr)) }
    { loaded := t.hw_filter_loaded, check := some (decide (band ∈ hw_bands)) }
    { loaded := t.carrier_loaded, check := some (!decide (band ∈ carrier_excluded)) }
    { loaded := t.generic_loaded, check := some (!decide (band ∈ t.generic_nr_excluded)) }
    { loaded := t.nv_pref_loaded && nv_present, check := some (decide (band ∈ nv_bands)) }
  let qxdmSt := obsStage t.qxdm_loaded (some (decide (band ∈ qxdm_bands)))
  let ue_cap_bands := if mode = "SA" then t.ue_cap_nr_sa else t.ue_cap_nr_nsa
  let ueSt := obsStage t.ue_cap_loaded
    (if ue_cap_bands = ∅ then none else some (decide (band ∈ ue_cap_bands)))
  let stages := mkStages o qxdmSt ueSt
  let fin := determine_final_status stages o.state.filtered
  { band_num := band, band_type := "NR_" ++ mode, stages := stages,
    final_status := fin.1,
    filtered_at := o.state.filtered_at.map Stage.name,
    anomaly_reason := fin.2 }

/-! ## Spec-side helpers and pipeline facts for the band tracer -/

/-- The final-classification cascade exactly as the specification's §4.1
step 4 (claim C1) words it, first match wins.  Written from the spec, to be
compared with the code's `determine_final_status`. -/
def specFinalStatus (rfc qx ue : BandStatus) (filtered : Bool) : FinalStatus :=
  if rfc = BandStatus.fail ∧ (qx = BandStatus.pass ∨ ue = BandStatus.pass) then
    FinalStatus.anomaly
  else if rfc = BandStatus.fail then
    FinalStatus.not_supported
  else if filtered = false ∧ qx = BandStatus.fail ∧ ue ≠ BandStatus.na then
    FinalStatus.missing_in_pm
  else if filtered = false ∧ ue = BandStatus.fail ∧ qx = BandStatus.pass then
    FinalStatus.missing_in_ue
  else if filtered = false ∧ qx ≠ BandStatus.fail ∧ ue ≠ BandStatus.fail then
    FinalStatus.enabled
  else if filtered = true then
    FinalStatus.filtered
  else
    FinalStatus.enabled

/-- Whether any of the five filtering stages of a trace result records FAIL
(the observable meaning of the internal `filtered` flag). -/
def anyFilteringFail (r : BandTraceResult) : Bool :=
  (r.stages Stage.rfc == BandStatus.fail) || (r.stages Stage.hw_filter == BandStatus.fail) ||
  (r.stages Stage.carrier == BandStatus.fail) || (r.stages Stage.generic == BandStatus.fail) ||
  (r.stages Stage.nv_pref == BandStatus.fail)

/-- Same disjunction on a raw `FilterOutcome`. -/
def anyFilteringFailO (o : FilterOutcome) : Bool :=
  (o.rfcSt == BandStatus.fail) || (o.hwSt == BandStatus.fail) ||
  (o.carSt == BandStatus.fail) || (o.genSt == BandStatus.fail) ||
  (o.nvSt == BandStatus.fail)

/-- The first filtering stage (in pipeline order) whose recorded status is
FAIL, if any. -/
def firstFailingStage (stages : Stage → BandStatus) : Option Stage :=
  if stages Stage.rfc = BandStatus.fail then some Stage.rfc
  else if stages Stage.hw_filter = BandStatus.fail then some Stage.hw_filter
  else if stages Stage.carrier = BandStatus.fail then some Stage.carrier
  else if stages Stage.generic = BandStatus.fail then some Stage.generic
  else if stages Stage.nv_pref = BandStatus.fail then some Stage.nv_pref
  else none

/-- `determine_final_status` computes exactly the spec's cascade, for every
combination of the three statuses it reads and of the `filtered` flag. -/
theorem determine_eq_spec (stages : Stage → BandStatus) (f : Bool) :
    (determine_final_status stages f).1 =
      specFinalStatus (stages Stage.rfc) (stages Stage.qxdm) (stages Stage.ue_cap) f := by
  cases hr : stages Stage.rfc <;> cases hq : stages Stage.qxdm <;>
    cases hu : stages Stage.ue_cap <;> cases f <;>
    simp [determine_final_status, specFinalStatus, hr, hq, hu]

set_option maxHeartbeats 4000000 in
/-- All per-run facts about the five filtering-stage blocks, checked over
every combination of loaded flags and stage checks: the final `filtered`
flag is exactly "some stage failed"; once a stage fails all later stages are
skipped; `filtered_at` is the first failing stage; and an unloaded stage
records N/A unless an earlier stage already failed (in which case it records
SKIPPED). -/
theorem pipeline_facts : ∀ a b c d e : FilterStageInput,
    (runFilterStages a b c d e).state.filtered =
        anyFilteringFailO (runFilterStages a b c d e) ∧
    ((runFilterStages a b c d e).rfcSt = BandStatus.fail →
        (runFilterStages a b c d e).hwSt = BandStatus.skipped ∧
        (runFilterStages a b c d e).carSt = BandStatus.skipped ∧
        (runFilterStages a b c d e).genSt = BandStatus.skipped ∧
        (runFilterStages a b c d e).nvSt = BandStatus.skipped) ∧
    ((runFilterStages a b c d e).hwSt = BandStatus.fail →
        (runFilterStages a b c d e).carSt = BandStatus.skipped ∧
        (runFilterStages a b c d e).genSt = BandStatus.skipped ∧
        (runFilterStages a b c d e).nvSt = BandStatus.skipped) ∧
    ((runFilterStages a b c d e).carSt = BandStatus.fail →
        (runFilterStages a b c d e).genSt = BandStatus.skipped ∧
        (runFilterStages a b c d e).nvSt = BandStatus.skipped) ∧
    ((runFilterStages a b c d e).genSt = BandStatus.fail →
        (runFilterStages a b c d e).nvSt = BandStatus.skipped) ∧
    ((runFilterStages a b c d e).state.filtered_at =
        firstFailingStage (mkStages (runFilterStages a b c d e) BandStatus.na BandStatus.na)) ∧
    (a.loaded = false → (runFilterStages a b c d e).rfcSt = BandStatus.na) ∧
    (b.loaded = false → (runFilterStages a b c d e).hwSt =
        (if (runFilterStages a b c d e).rfcSt = BandStatus.fail then BandStatus.skipped
         else BandStatus.na)) ∧
    (c.loaded = false → (runFilterStages a b c d e).carSt =
        (if (runFilterStages a b c d e).rfcSt = BandStatus.fail ∨
            (runFilterStages a b c d e).hwSt = BandStatus.fail then BandStatus.skipped
         else BandStatus.na)) ∧
    (d.loaded = false → (runFilterStages a b c d e).genSt =
        (if (runFilterStages a b c d e).rfcSt = BandStatus.fail ∨
            (runFilterStages a b c d e).hwSt = BandStatus.fail ∨
            (runFilterStages a b c d e).carSt = BandStatus.fail then BandStatus.skipped
         else BandStatus.na)) ∧
    (e.loaded = false → (runFilterStages a b c d e).nvSt =
        (if (runFilterStages a b c d e).rfcSt = BandStatus.fail ∨
            (runFilterStages a b c d e).hwSt = BandStatus.fail ∨
            (runFilterStages a b c d e).carSt = BandStatus.fail ∨
            (runFilterStages a b c d e).genSt = BandStatus.fail then BandStatus.skipped
         else BandStatus.na)) := by
  decide

/-- The `determine_final_status` call of an assembled trace equals the spec
cascade evaluated on the trace's observable statuses, with the `filtered`
flag replaced by "some filtering stage recorded FAIL". -/
theorem assembled_c1 (a b c d e : FilterStageInput) (qx ue : BandStatus) :
    (determine_final_status (mkStages (runFilterStages a b c d e) qx ue)
        (runFilterStages a b c d e).state.filtered).1 =
      specFinalStatus (mkStages (runFilterStages a b c d e) qx ue Stage.rfc)
        (mkStages (runFilterStages a b c d e) qx ue Stage.qxdm)
        (mkStages (runFilterStages a b c d e) qx ue Stage.ue_cap)
        (anyFilteringFailO (runFilterStages a b c d e)) := by
  have h1 := determine_eq_spec (mkStages (runFilterStages a b c d e) qx ue)
      (runFilterStages a b c d e).state.filtered
  have h2 := (pipeline_facts a b c d e).1
  rw [h1, h2]

/-- C1: the final band classification follows the fixed priority order,
first match wins: RFC Fail with an observation Pass gives Anomaly; else RFC
Fail gives NotSupportedByHardware; else (unfiltered) QXDM Fail with UE_Cap
not NotApplicable gives MissingInDeviceLog; else (unfiltered) UE_Cap Fail
with QXDM Pass gives MissingInNetworkCapability; else (unfiltered, no
observation Fail) Enabled; else filtered gives Filtered; else Enabled —
for every traced LTE and NR band. -/
theorem final_status_priority_order :
    ∀ (t : BandTracer) (band : ℕ) (mode : String),
      (trace_lte_band t band).final_status =
        specFinalStatus ((trace_lte_band t band).stages Stage.rfc)
          ((trace_lte_band t band).stages Stage.qxdm)
          ((trace_lte_band t band).stages Stage.ue_cap)
          (anyFilteringFail (trace_lte_band t band)) ∧
      (trace_nr_band t band mode).final_status =
        specFinalStatus ((trace_nr_band t band mode).stages Stage.rfc)
          ((trace_nr_band t band mode).stages Stage.qxdm)
          ((trace_nr_band t band mode).stages Stage.ue_cap)
          (anyFilteringFail (trace_nr_band t band mode)) := by
  intro t band mode
  constructor
  · exact assembled_c1
      { loaded := t.rfc_loaded, check := some (decide (band ∈ t.rfc_lte)) }
      { loaded := t.hw_filter_loaded, check := some (decide (band ∈ t.hw_lte)) }
      { loaded := t.carrier_loaded, check := some (!decide (band ∈ t.carrier_lte_excluded)) }
      { loaded := t.generic_loaded, check := some (!decide (band ∈ t.generic_lte_excluded)) }
      { loaded := t.nv_pref_loaded,
        check := if (if band ≤ 64 then t.nv_lte_base_present else t.nv_lte_ext_present) then
            some (decide (band ∈ t.nv_lte)) else none }
      (obsStage t.qxdm_loaded (some (decide (band ∈ t.qxdm_lte))))
      (obsStage t.ue_cap_loaded (some (decide (band ∈ t.ue_cap_lte))))
  · exact assembled_c1
      { loaded := t.rfc_loaded, check := some (decide (band ∈ t.rfc_nr)) }
      { loaded := t.hw_filter_loaded,
        check := some (decide (band ∈ (if mode = "SA" then t.hw_nr_sa else t.hw_nr_nsa))) }
      { loaded := t.carrier_loaded,
        check := some (!decide (band ∈
          (if mode = "SA" then t.carrier_nr_sa_excluded else t.carrier_nr_nsa_excluded))) }
      { loaded := t.generic_loaded, check := some (!decide (band ∈ t.generic_nr_excluded)) }
      { loaded := t.nv_pref_loaded &&
          (if mode = "SA" then t.nv_nr_sa_present else t.nv_nr_nsa_present),
        check := some (decide (band ∈ (if mode = "SA" then t.nv_nr_sa else t.nv_nr_nsa))) }
      (obsStage t.qxdm_loaded
        (some (decide (band ∈ (if mode = "SA" then t.qxdm_nr_sa else t.qxdm_nr_nsa)))))
      (obsStage t.ue_cap_loaded
        (if (if mode = "SA" then t.ue_cap_nr_sa else t.ue_cap_nr_nsa) = ∅ then none
         else some (decide (band ∈ (if mode = "SA" then t.ue_cap_nr_sa else t.ue_cap_nr_nsa)))))

/-- A tracer that has ingested only the RFC document, whose LTE band set is
`{1}`. -/
def c2Tracer : BandTracer := { rfc_lte := {1}, rfc_loaded := true }

/-- C2 counterexample: band 2 fails RFC (its only loaded stage), and the
HW_Filter document was never ingested — yet the trace records HW_Filter as
SKIPPED, not NotApplicable.  So an un-ingested stage is not `NotApplicable`
regardless of other stages' outcomes. -/
theorem notapplicable_purity_counterexample :
    c2Tracer.hw_filter_loaded = false ∧
    (trace_lte_band c2Tracer 2).stages Stage.rfc = BandStatus.fail ∧
    (trace_lte_band c2Tracer 2).stages Stage.hw_filter = BandStatus.skipped ∧
    (trace_lte_band c2Tracer 2).stages Stage.hw_filter ≠ BandStatus.na := by decide

/-- C2 amended: a stage whose document was never ingested records
NotApplicable unless an earlier filtering stage already recorded Fail, in
which case the (filtering) stage records Skipped.  RFC and the observation
stages (QXDM, UE_Cap) record NotApplicable unconditionally when their
document is missing. -/
theorem notapplicable_unless_already_filtered :
    ∀ (t : BandTracer) (band : ℕ) (mode : String) (r : BandTraceResult),
      (r = trace_lte_band t band ∨ r = trace_nr_band t band mode) →
      (t.rfc_loaded = false → r.stages Stage.rfc = BandStatus.na) ∧
      (t.hw_filter_loaded = false → r.stages Stage.hw_filter =
        (if r.stages Stage.rfc = BandStatus.fail then BandStatus.skipped else BandStatus.na)) ∧
      (t.carrier_loaded = false → r.stages Stage.carrier =
        (if r.stages Stage.rfc = BandStatus.fail ∨ r.stages Stage.hw_filter = BandStatus.fail
         then BandStatus.skipped else BandStatus.na)) ∧
      (t.generic_loaded = false → r.stages Stage.generic =
        (if r.stages Stage.rfc = BandStatus.fail ∨ r.stages Stage.hw_filter = BandStatus.fail ∨
            r.stages Stage.carrier = BandStatus.fail
         then BandStatus.skipped else BandStatus.na)) ∧
      (t.nv_pref_loaded = false → r.stages Stage.nv_pref =
        (if r.stages Stage.rfc = BandStatus.fail ∨ r.stages Stage.hw_filter = BandStatus.fail ∨
            r.stages Stage.carrier = BandStatus.fail ∨ r.stages Stage.generic = BandStatus.fail
         then BandStatus.skipped else BandStatus.na)) ∧
      (t.qxdm_loaded = false → r.stages Stage.qxdm = BandStatus.na) ∧
      (t.ue_cap_loaded = false → r.stages Stage.ue_cap = BandStatus.na) := by
  have obs_na : ∀ (l : Bool) (c : Option Bool), l = false → obsStage l c = BandStatus.na := by
    intro l c h; subst h; rfl
  intro t band mode r hr
  rcases hr with rfl | rfl
  · have F := pipeline_facts
      { loaded := t.rfc_loaded, check := some (decide (band ∈ t.rfc_lte)) }
      { loaded := t.hw_filter_loaded, check := some (decide (band ∈ t.hw_lte)) }
      { loaded := t.carrier_loaded, check := some (!decide (band ∈ t.carrier_lte_excluded)) }
      { loaded := t.generic_loaded, check := some (!decide (band ∈ t.generic_lte_excluded)) }
      { loaded := t.nv_pref_loaded,
        check := if (if band ≤ 64 then t.nv_lte_base_present else t.nv_lte_ext_present) then
            some (decide (band ∈ t.nv_lte)) else none }
    refine ⟨?_, ?_, ?_, ?_, ?_, ?_, ?_⟩
    · exact F.2.2.2.2.2.2.1
    · exact F.2.2.2.2.2.2.2.1
    · exact F.2.2.2.2.2.2.2.2.1
    · exact F.2.2.2.2.2.2.2.2.2.1
    · exact F.2.2.2.2.2.2.2.2.2.2
    · exact obs_na t.qxdm_loaded _
    · exact obs_na t.ue_cap_loaded _
  · have F := pipeline_facts
      { loaded := t.rfc_loaded, check := some (decide (band ∈ t.rfc_nr)) }
      { loaded := t.hw_filter_loaded,
        check := some (decide (band ∈ (if mode = "SA" then t.hw_nr_sa else t.hw_nr_nsa))) }
      { loaded := t.carrier_loaded,
        check := some (!decide (band ∈
          (if mode = "SA" then t.carrier_nr_sa_excluded else t.carrier_nr_nsa_excluded))) }
      { loaded := t.generic_loaded, check := some (!decide (band ∈ t.generic_nr_excluded)) }
      { loaded := t.nv_pref_loaded &&
          (if mode = "SA" then t.nv_nr_sa_present else t.nv_nr_nsa_present),
        check := some (decide (band ∈ (if mode = "SA" then t.nv_nr_sa else t.nv_nr_nsa))) }
    refine ⟨?_, ?_, ?_, ?_, ?_, ?_, ?_⟩
    · exact F.2.2.2.2.2.2.1
    · exact F.2.2.2.2.2.2.2.1
    · exact F.2.2.2.2.2.2.2.2.1
    · exact F.2.2.2.2.2.2.2.2.2.1
    · intro h
      have hl : (t.nv_pref_loaded &&
          (if mode = "SA" then t.nv_nr_sa_present else t.nv_nr_nsa_present)) = false := by
        rw [h]; exact Bool.false_and _
      exact F.2.2.2.2.2.2.2.2.2.2 hl
    · exact obs_na t.qxdm_loaded _
    · exact obs_na t.ue_cap_loaded _

/-- Witness for the amended C2 statement at a concrete input: with only the
RFC document ingested and band 3 passing RFC, every other stage records
NotApplicable. -/
theorem notapplicable_unless_already_filtered_witness :
    (trace_lte_band { rfc_lte := {3}, rfc_loaded := true } 3).stages Stage.hw_filter =
        BandStatus.na ∧
    (trace_lte_band { rfc_lte := {3}, rfc_loaded := true } 3).stages Stage.qxdm =
        BandStatus.na := by
  have h := notapplicable_unless_already_filtered
    { rfc_lte := {3}, rfc_loaded := true } 3 "SA"
    (trace_lte_band { rfc_lte := {3}, rfc_loaded := true } 3) (Or.inl rfl)
  exact ⟨(h.2.1 rfl).trans (by decide), h.2.2.2.2.2.1 rfl⟩

/-- C6: stage monotonicity — for every traced band, if a filtering stage
records Fail then every later stage in the fixed filtering order
RFC → HW_Filter → Carrier → Generic → NV_Pref records Skipped, and
`filtered_at` is the name of the first failing filtering stage. -/
theorem stage_monotonicity_first_fail :
    ∀ (t : BandTracer) (band : ℕ) (mode : String) (r : BandTraceResult),
      (r = trace_lte_band t band ∨ r = trace_nr_band t band mode) →
      (∀ i j : Stage, i.isFiltering = true → j.isFiltering = true →
        i.idx < j.idx → r.stages i = BandStatus.fail →
        r.stages j = BandStatus.skipped) ∧
      r.filtered_at = (firstFailingStage r.stages).map Stage.name := by
  have main : ∀ (a b c d e : FilterStageInput) (qx ue : BandStatus),
      (∀ i j : Stage, i.isFiltering = true → j.isFiltering = true →
        i.idx < j.idx →
        mkStages (runFilterStages a b c d e) qx ue i = BandStatus.fail →
        mkStages (runFilterStages a b c d e) qx ue j = BandStatus.skipped) ∧
      (runFilterStages a b c d e).state.filtered_at.map Stage.name =
        (firstFailingStage (mkStages (runFilterStages a b c d e) qx ue)).map Stage.name := by
    intro a b c d e qx ue
    have F := pipeline_facts a b c d e
    constructor
    · intro i j hi hj hij hfail
      cases i with
      | rfc =>
        cases j with
        | rfc => exact absurd hij (by decide)
        | hw_filter => exact (F.2.1 hfail).1
        | carrier => exact (F.2.1 hfail).2.1
        | generic => exact (F.2.1 hfail).2.2.1
        | nv_pref => exact (F.2.1 hfail).2.2.2
        | qxdm => exact absurd hj (by decide)
        | ue_cap => exact absurd hj (by decide)
      | hw_filter =>
        cases j with
        | rfc => exact absurd hij (by decide)
        | hw_filter => exact absurd hij (by decide)
        | carrier => exact (F.2.2.1 hfail).1
        | generic => exact (F.2.2.1 hfail).2.1
        | nv_pref => exact (F.2.2.1 hfail).2.2
        | qxdm => exact absurd hj (by decide)
        | ue_cap => exact absurd hj (by decide)
      | carrier =>
        cases j with
        | rfc => exact absurd hij (by decide)
        | hw_filter => exact absurd hij (by decide)
        | carrier => exact absurd hij (by decide)
        | generic => exact (F.2.2.2.1 hfail).1
        | nv_pref => exact (F.2.2.2.1 hfail).2
        | qxdm => exact absurd hj (by decide)
        | ue_cap => exact absurd hj (by decide)
      | generic =>
        cases j with
        | rfc => exact absurd hij (by decide)
        | hw_filter => exact absurd hij (by decide)
        | carrier => exact absurd hij (by decide)
        | generic => exact absurd hij (by decide)
        | nv_pref => exact F.2.2.2.2.1 hfail
        | qxdm => exact absurd hj (by decide)
        | ue_cap => exact absurd hj (by decide)
      | nv_pref =>
        cases j with
        | rfc => exact absurd hij (by decide)
        | hw_filter => exact absurd hij (by decide)
        | carrier => exact absurd hij (by decide)
        | generic => exact absurd hij (by decide)
        | nv_pref => exact absurd hij (by decide)
        | qxdm => exact absurd hj (by decide)
        | ue_cap => exact absurd hj (by decide)
      | qxdm => exact absurd hi (by decide)
      | ue_cap => exact absurd hi (by decide)
    · exact congrArg (Option.map Stage.name) F.2.2.2.2.2.1
  intro t band mode r hr
  rcases hr with rfl | rfl
  · exact main
      { loaded := t.rfc_loaded, check := some (decide (band ∈ t.rfc_lte)) }
      { loaded := t.hw_filter_loaded, check := some (decide (band ∈ t.hw_lte)) }
      { loaded := t.carrier_loaded, check := some (!decide (band ∈ t.carrier_lte_excluded)) }
      { loaded := t.generic_loaded, check := some (!decide (band ∈ t.generic_lte_excluded)) }
      { loaded := t.nv_pref_loaded,
        check := if (if band ≤ 64 then t.nv_lte_base_present else t.nv_lte_ext_present) then
            some (decide (band ∈ t.nv_lte)) else none }
      (obsStage t.qxdm_loaded (some (decide (band ∈ t.qxdm_lte))))
      (obsStage t.ue_cap_loaded (some (decide (band ∈ t.ue_cap_lte))))
  · exact main
      { loaded := t.rfc_loaded, check := some (decide (band ∈ t.rfc_nr)) }
      { loaded := t.hw_filter_loaded,
        check := some (decide (band ∈ (if mode = "SA" then t.hw_nr_sa else t.hw_nr_nsa))) }
      { loaded := t.carrier_loaded,
        check := some (!decide (band ∈
          (if mode = "SA" then t.carrier_nr_sa_excluded else t.carrier_nr_nsa_excluded))) }
      { loaded := t.generic_loaded, check := some (!decide (band ∈ t.generic_nr_excluded)) }
      { loaded := t.nv_pref_loaded &&
          (if mode = "SA" then t.nv_nr_sa_present else t.nv_nr_nsa_present),
        check := some (decide (band ∈ (if mode = "SA" then t.nv_nr_sa else t.nv_nr_nsa))) }
      (obsStage t.qxdm_loaded
        (some (decide (band ∈ (if mode = "SA" then t.qxdm_nr_sa else t.qxdm_nr_nsa)))))
      (obsStage t.ue_cap_loaded
        (if (if mode = "SA" then t.ue_cap_nr_sa else t.ue_cap_nr_nsa) = ∅ then none
         else some (decide (band ∈ (if mode = "SA" then t.ue_cap_nr_sa else t.ue_cap_nr_nsa)))))

/-- Witness for C6 at a concrete input: RFC = {1,3,7} and HW_Filter = {1,3}
ingested, so band 7 fails HW_Filter; Carrier is Skipped and
`filtered_at = "HW_Filter"`. -/
theorem stage_monotonicity_first_fail_witness :
    (trace_lte_band { rfc_lte := {1, 3, 7}, rfc_loaded := true,
                      hw_lte := {1, 3}, hw_filter_loaded := true } 7).stages Stage.carrier =
      BandStatus.skipped ∧
    (trace_lte_band { rfc_lte := {1, 3, 7}, rfc_loaded := true,
                      hw_lte := {1, 3}, hw_filter_loaded := true } 7).filtered_at =
      some "HW_Filter" := by
  have h := stage_monotonicity_first_fail
    { rfc_lte := {1, 3, 7}, rfc_loaded := true, hw_lte := {1, 3}, hw_filter_loaded := true }
    7 "SA"
    (trace_lte_band { rfc_lte := {1, 3, 7}, rfc_loaded := true,
                      hw_lte := {1, 3}, hw_filter_loaded := true } 7) (Or.inl rfl)
  refine ⟨h.1 Stage.hw_filter Stage.carrier (by decide) (by decide) (by decide) (by decide), ?_⟩
  exact h.2.trans (by decide)

/-! ## Combos data model (DeviceSWAnalyzer combos module, models.py) -/

/-- `ComboType` enum. -/
inductive ComboType
  | lte_ca
  | nrca
  | endc
  | nrdc
deriving DecidableEq, Repr, Fintype

/-- `DataSource` enum. -/
inductive DataSource
  | rfc
  | rrc_table
  | ue_cap
  | efs
  | rfpd
deriving DecidableEq, Repr, Fintype

/-- `DiscrepancyType` enum. -/
inductive DiscrepancyType
  | missing_in_rrc
  | missing_in_uecap
  | extra_in_rrc
  | bcs_mismatch
  | pruned_by_efs
  | envelope_filtered
deriving DecidableEq, Repr, Fintype

/-- `BandComponent`: a single band component in a combo. -/
structure BandComponent where
  band : ℕ
  band_class : String
  mimo_layers : Option ℕ := none
  is_nr : Bool := false
deriving DecidableEq, Repr

/-- `BandComponent.__str__`: `"n{band}{band_class}"` for NR,
`"{band}{band_class}"` for LTE. -/
def BandComponent.str (c : BandComponent) : String :=
  (if c.is_nr then "n" else "") ++ toString c.band ++ c.band_class

/-- The Python sort key `lambda c: (c.is_nr, c.band, c.band_class)` used by
`normalized_key` and the normalizer. -/
def BandComponent.sortKey (c : BandComponent) : Bool × ℕ × String :=
  (c.is_nr, c.band, c.band_class)

/-- Lexicographic (code-point) comparison of character lists — the
comparison Python uses between strings (here written as an executable
boolean so that concrete keys evaluate). -/
def charListLe : List Char → List Char → Bool
  | [], _ => true
  | _ :: _, [] => false
  | c :: cs, d :: ds => if c < d then true else if d < c then false else charListLe cs ds

/-- Python's `<=` on strings: lexicographic on the character data. -/
def strLe (s t : String) : Prop :=
  charListLe s.data t.data = true

instance : DecidableRel strLe := fun s t =>
  inferInstanceAs (Decidable (charListLe s.data t.data = true))

theorem charListLe_total : ∀ l1 l2 : List Char,
    charListLe l1 l2 = true ∨ charListLe l2 l1 = true
  | [], _ => Or.inl rfl
  | _ :: _, [] => Or.inr rfl
  | c :: cs, d :: ds => by
    unfold charListLe
    rcases lt_trichotomy c d with h | h | h
    · simp only [if_pos h]
      exact Or.inl trivial
    · subst h
      simp only [if_neg (lt_irrefl c)]
      exact charListLe_total cs ds
    · simp only [if_pos h, if_neg (lt_asymm h)]
      exact Or.inr trivial

theorem charListLe_trans : ∀ l1 l2 l3 : List Char,
    charListLe l1 l2 = true → charListLe l2 l3 = true → charListLe l1 l3 = true
  | [], _, _ => fun _ _ => rfl
  | _ :: _, [], _ => fun h _ => by cases h
  | _ :: _, _ :: _, [] => fun _ h => by cases h
  | c :: cs, d :: ds, e :: es => by
    unfold charListLe
    intro h1 h2
    rcases lt_trichotomy c d with hcd | hcd | hcd
    · rcases lt_trichotomy d e with hde | hde | hde
      · simp only [if_pos (hcd.trans hde)]
      · subst hde
        simp only [if_pos hcd]
      · simp only [if_pos hde, if_neg (lt_asymm hde)] at h2
        cases h2
    · subst hcd
      rcases lt_trichotomy c e with hde | hde | hde
      · simp only [if_pos hde]
      · subst hde
        simp only [if_neg (lt_irrefl c)] at h1 h2 ⊢
        exact charListLe_trans cs ds es h1 h2
      · simp only [if_pos hde, if_neg (lt_asymm hde)] at h2
        cases h2
    · simp only [if_pos hcd, if_neg (lt_asymm hcd)] at h1
      cases h1

theorem charListLe_antisymm : ∀ l1 l2 : List Char,
    charListLe l1 l2 = true → charListLe l2 l1 = true → l1 = l2
  | [], [] => fun _ _ => rfl
  | [], _ :: _ => fun _ h => by cases h
  | _ :: _, [] => fun h _ => by cases h
  | c :: cs, d :: ds => by
    unfold charListLe
    intro h1 h2
    rcases lt_trichotomy c d with hcd | hcd | hcd
    · simp only [if_pos hcd, if_neg (lt_asymm hcd)] at h2
      cases h2
    · subst hcd
      simp only [if_neg (lt_irrefl c)] at h1 h2
      rw [charListLe_antisymm cs ds h1 h2]
    · simp only [if_pos hcd, if_neg (lt_asymm hcd)] at h1
      cases h1

theorem strLe_total (s t : String) : strLe s t ∨ strLe t s :=
  charListLe_total s.data t.data

theorem strLe_trans {s t u : String} (h1 : strLe s t) (h2 : strLe t u) : strLe s u :=
  charListLe_trans s.data t.data u.data h1 h2

theorem strLe_antisymm {s t : String} (h1 : strLe s t) (h2 : strLe t s) : s = t := by
  cases s with
  | mk d1 =>
    cases t with
    | mk d2 =>
      exact congrArg String.mk (charListLe_antisymm d1 d2 h1 h2)

/-- Lexicographic comparison of Python sort-key tuples
`(is_nr, band, band_class)`; `False < True` for the leading bool. -/
def tupLe (a b : Bool × ℕ × String) : Prop :=
  (a.1 = false ∧ b.1 = true) ∨
    (a.1 = b.1 ∧ (a.2.1 < b.2.1 ∨ (a.2.1 = b.2.1 ∧ strLe a.2.2 b.2.2)))

instance : DecidableRel tupLe := fun a b =>
  inferInstanceAs (Decidable ((a.1 = false ∧ b.1 = true) ∨
    (a.1 = b.1 ∧ (a.2.1 < b.2.1 ∨ (a.2.1 = b.2.1 ∧ strLe a.2.2 b.2.2)))))

/-- Component comparison: compare the Python sort keys. -/
def componentLe (a b : BandComponent) : Prop :=
  tupLe a.sortKey b.sortKey

instance : DecidableRel componentLe := fun a b =>
  inferInstanceAs (Decidable (tupLe a.sortKey b.sortKey))

/-- Totality of the tail of the sort-key order (band, then band class). -/
theorem natStrTotal (x y : ℕ) (s t : String) :
    (x < y ∨ (x = y ∧ strLe s t)) ∨ (y < x ∨ (y = x ∧ strLe t s)) := by
  rcases Nat.lt_trichotomy x y with h | h | h
  · exact Or.inl (Or.inl h)
  · rcases strLe_total s t with h3 | h3
    · exact Or.inl (Or.inr ⟨h, h3⟩)
    · exact Or.inr (Or.inr ⟨h.symm, h3⟩)
  · exact Or.inr (Or.inl h)

instance : IsTotal (Bool × ℕ × String) tupLe where
  total a b := by
    rcases a with ⟨a1, a2, a3⟩
    rcases b with ⟨b1, b2, b3⟩
    unfold tupLe
    dsimp only
    rcases a1 <;> rcases b1
    · rcases natStrTotal a2 b2 a3 b3 with h | h
      · exact Or.inl (Or.inr ⟨rfl, h⟩)
      · exact Or.inr (Or.inr ⟨rfl, h⟩)
    · exact Or.inl (Or.inl ⟨rfl, rfl⟩)
    · exact Or.inr (Or.inl ⟨rfl, rfl⟩)
    · rcases natStrTotal a2 b2 a3 b3 with h | h
      · exact Or.inl (Or.inr ⟨rfl, h⟩)
      · exact Or.inr (Or.inr ⟨rfl, h⟩)

instance : IsTrans (Bool × ℕ × String) tupLe where
  trans a b c hab hbc := by
    rcases a with ⟨a1, a2, a3⟩
    rcases b with ⟨b1, b2, b3⟩
    rcases c with ⟨c1, c2, c3⟩
    unfold tupLe at hab hbc ⊢
    dsimp only at hab hbc ⊢
    rcases hab with ⟨h1, h2⟩ | ⟨h1, h2⟩
    · rcases hbc with ⟨g1, g2⟩ | ⟨g1, g2⟩
      · rw [h2] at g1; exact absurd g1 (by decide)
      · exact Or.inl ⟨h1, g1 ▸ h2⟩
    · rcases hbc with ⟨g1, g2⟩ | ⟨g1, g2⟩
      · exact Or.inl ⟨h1.trans g1, g2⟩
      · refine Or.inr ⟨h1.trans g1, ?_⟩
        rcases h2 with h | ⟨h, h3⟩ <;> rcases g2 with g | ⟨g, g3⟩
        · exact Or.inl (h.trans g)
        · exact Or.inl (g ▸ h)
        · exact Or.inl (h ▸ g)
        · exact Or.inr ⟨h.trans g, strLe_trans h3 g3⟩

instance : IsAntisymm (Bool × ℕ × String) tupLe where
  antisymm a b hab hba := by
    rcases a with ⟨a1, a2, a3⟩
    rcases b with ⟨b1, b2, b3⟩
    unfold tupLe at hab hba
    dsimp only at hab hba
    rcases hab with ⟨h1, h2⟩ | ⟨h1, h2⟩
    · rcases hba with ⟨g1, g2⟩ | ⟨g1, g2⟩
      · rw [h2] at g1; exact absurd g1 (by decide)
      · rw [h1] at g1; rw [g1] at h2; exact absurd h2 (by decide)
    · rcases hba with ⟨g1, g2⟩ | ⟨g1, g2⟩
      · rw [g1] at h1; rw [h1] at g2; exact absurd g2 (by decide)
      · subst h1
        rcases h2 with h | ⟨h, h3⟩ <;> rcases g2 with g | ⟨g, g3⟩
        · exact absurd (h.trans g) (lt_irrefl _)
        · rw [g] at h; exact absurd h (lt_irrefl _)
        · rw [h] at g; exact absurd g (lt_irrefl _)
        · subst h
          rw [strLe_antisymm h3 g3]

instance : IsTotal BandComponent componentLe where
  total a b := total_of tupLe a.sortKey b.sortKey

instance : IsTrans BandComponent componentLe where
  trans _ _ _ hab hbc := Trans.trans (r := tupLe) hab hbc

/-- `Combo`: a carrier aggregation or dual connectivity combination. -/
structure Combo where
  combo_type : ComboType
  components : List BandComponent
  bcs : Option (Finset ℕ) := none
  fallback_list : List ℕ := []
  source : Option DataSource := none
  raw_string : Option String := none
deriving DecidableEq

/-- `Combo.normalized_key`: join the components sorted by
`(is_nr, band, band_class)` (LTE bands first ascending, then NR ascending)
with `"-"`.  Note this property sorts but does NOT deduplicate. -/
def Combo.normalized_key (c : Combo) : String :=
  let sorted_components := c.components.insertionSort componentLe
  String.intercalate "-" (sorted_components.map BandComponent.str)

/-- `Combo.__eq__`: two combos are equal iff their `normalized_key`s are
equal (the `isinstance` guard is vacuous between two combos). -/
def Combo.eq (a b : Combo) : Bool :=
  a.normalized_key == b.normalized_key

/-- `Combo.bands`: the set of band numbers in the combo. -/
def Combo.bands (c : Combo) : Finset ℕ :=
  (c.components.map BandComponent.band).toFinset

/-! ## Normalizer (analyzers/normalizer.py) -/

/-- Python `str.upper()` on a band-class string, modelled character-wise
over the string's data (band classes are single ASCII letters, for which
`Char.toUpper` agrees with Python). -/
def strUpper (s : String) : String :=
  ⟨s.data.map Char.toUpper⟩

/-- The component loop of `Normalizer.normalize_combo`: uppercase each
component's band class, then drop any component whose
`(band, band_class, is_nr)` key was already seen. -/
def normalizeComponents : List BandComponent → List (ℕ × String × Bool) → List BandComponent
  | [], _ => []
  | comp :: rest, seen =>
    let norm_comp : BandComponent :=
      { band := comp.band, band_class := strUpper comp.band_class,
        mimo_layers := comp.mimo_layers, is_nr := comp.is_nr }
    let comp_key := (norm_comp.band, norm_comp.band_class, norm_comp.is_nr)
    if comp_key ∈ seen then normalizeComponents rest seen
    else norm_comp :: normalizeComponents rest (comp_key :: seen)

/-- `Normalizer.normalize_combo`: normalize the band classes, deduplicate by
`(band, band_class, is_nr)`, sort LTE-first then NR ascending by
`(is_nr, band, band_class)`, and copy every other field. -/
def normalize_combo (c : Combo) : Combo :=
  { combo_type := c.combo_type,
    components := (normalizeComponents c.components []).insertionSort componentLe,
    bcs := c.bcs,
    fallback_list := c.fallback_list,
    source := c.source,
    raw_string := c.raw_string }

/-- `Normalizer.get_canonical_key`: the `normalized_key` of the normalized
combo. -/
def get_canonical_key (c : Combo) : String :=
  (normalize_combo c).normalized_key

/-- `Normalizer.combos_equivalent`: equal canonical keys. -/
def combos_equivalent (a b : Combo) : Bool :=
  get_canonical_key a == get_canonical_key b

/-- `Normalizer.bcs_matches`: `None` on either side matches anything; two
present sets match iff their intersection is non-empty. -/
def bcs_matches (bcs1 bcs2 : Option (Finset ℕ)) : Bool :=
  match bcs1, bcs2 with
  | none, _ => true
  | _, none => true
  | some s1, some s2 => decide (0 < (s1 ∩ s2).card)

/-! ## Reasoning results and discrepancies (models.py) -/

/-- `ReasoningResult`. -/
structure ReasoningResult where
  has_explanation : Bool := false
  reason_type : Option String := none
  explanation : Option String := none
  source_file : Option String := none
  severity : String := "unknown"
  recommended_action : Option String := none
deriving DecidableEq, Repr

/-- `Discrepancy`. -/
structure Discrepancy where
  discrepancy_type : DiscrepancyType
  combo : Combo
  source_a : DataSource
  source_b : DataSource
  details : Option String := none
  reason : Option ReasoningResult := none
deriving DecidableEq

/-- `Discrepancy.severity`: the reason's severity when a reason exists,
else the literal `"medium"`. -/
def Discrepancy.severity (d : Discrepancy) : String :=
  match d.reason with
  | some r => r.severity
  | none => "medium"

/-- `ComboSet`: a `(source, combo_type)`-scoped dict from normalized key to
combo, modelled as an association list in insertion order. -/
structure ComboSet where
  source : DataSource
  combo_type : ComboType
  combos : List (String × Combo) := []
deriving DecidableEq

/-- The dict's keys, in insertion order. -/
def ComboSet.keysList (s : ComboSet) : List String :=
  s.combos.map Prod.fst

/-- `ComboSet.keys()`: the key set. -/
def ComboSet.keys (s : ComboSet) : Finset String :=
  s.keysList.toFinset

/-- `ComboSet.get`: dictionary lookup. -/
def ComboSet.get (s : ComboSet) (k : String) : Option Combo :=
  (s.combos.find? (fun e => e.1 == k)).map Prod.snd

/-- `ComparisonResult`. -/
structure ComparisonResult where
  source_a : DataSource
  source_b : DataSource
  combo_type : ComboType
  common : Finset String := ∅
  only_in_a : Finset String := ∅
  only_in_b : Finset String := ∅
  bcs_mismatches : List Discrepancy := []

/-- `ComparisonResult.match_percentage`, over ℚ: `100` when there are no
keys at all, else `|common| / (|common| + |only_in_a| + |only_in_b|) * 100`.
(The source computes this in floating point; the claims are about the exact
formula and its zero-denominator boundary, stated here over ℚ.) -/
def ComparisonResult.match_percentage (r : ComparisonResult) : ℚ :=
  let total := r.common.card + r.only_in_a.card + r.only_in_b.card
  if total = 0 then 100
  else ((r.common.card : ℚ) / (total : ℚ)) * 100

/-! ## Comparator (analyzers/comparator.py) -/

/-- `Comparator.compare`: three-way key partition plus a BCS-mismatch
discrepancy for every common key whose two combos fail `bcs_matches`.
Python iterates the `common` set; here the common keys are visited in
source-A insertion order (a determinization of Python's set iteration,
which does not affect which discrepancies are produced).  The source also
interpolates the two BCS sets into `details`; that presentation-only payload
is kept as the fixed prefix of the message. -/
def compare (source_a source_b : ComboSet) : ComparisonResult :=
  let keys_a := source_a.keys
  let keys_b := source_b.keys
  let common := keys_a ∩ keys_b
  let only_in_a := keys_a \ keys_b
  let only_in_b := keys_b \ keys_a
  let commonList := source_a.keysList.filter (fun k => decide (k ∈ keys_b))
  let bcs_mismatches := commonList.filterMap (fun key =>
    match source_a.get key, source_b.get key with
    | some combo_a, some combo_b =>
      if bcs_matches combo_a.bcs combo_b.bcs then none
      else some { discrepancy_type := DiscrepancyType.bcs_mismatch,
                  combo := combo_a,
                  source_a := source_a.source,
                  source_b := source_b.source,
                  details := some "BCS mismatch" }
    | _, _ => none)
  { source_a := source_a.source,
    source_b := source_b.source,
    combo_type := source_a.combo_type,
    common := common,
    only_in_a := only_in_a,
    only_in_b := only_in_b,
    bcs_mismatches := bcs_mismatches }

/-! ## Knowledge base and reasoning engine (models.py, reasoning_engine.py) -/

/-- `BandRestriction`. -/
structure BandRestriction where
  band : ℕ
  restriction_type : String
  regions : List String := []
  reason : String := ""
  source_file : String := ""
deriving DecidableEq

/-- `ComboRestriction`. -/
structure ComboRestriction where
  combo_key : String
  restriction_type : String
  reason : String := ""
  source_file : String := ""
deriving DecidableEq

/-- `CarrierRequirement`. -/
structure CarrierRequirement where
  carrier_name : String
  required_combos : Finset String := ∅
  optional_combos : Finset String := ∅
  excluded_combos : Finset String := ∅
  notes : List (String × String) := []
deriving DecidableEq

/-- `KnowledgeBaseContext`. -/
structure KnowledgeBaseContext where
  band_restrictions : List (ℕ × List BandRestriction) := []
  combo_restrictions : List (String × List ComboRestriction) := []
  carrier_requirements : List (String × CarrierRequirement) := []
  active_carrier : Option String := none
  active_region : Option String := none
deriving DecidableEq

/-- `ReasoningEngine._restriction_applies`: with no regions on the
restriction it always applies; with a truthy active region (present and
non-empty, per Python truthiness) it applies iff the upper-cased region is
among the upper-cased restriction regions; otherwise it applies. -/
def restriction_applies (kb : KnowledgeBaseContext) (r : BandRestriction) : Bool :=
  if r.regions.isEmpty then true
  else
    match kb.active_region with
    | some region =>
      if region ≠ "" then decide (strUpper region ∈ r.regions.map strUpper)
      else true
    | none => true

/-- `ReasoningEngine._default_severity`: fixed per-discrepancy-type defaults
(the source's dict lookup covers all six types, with fallback `"medium"`
unreachable). -/
def default_severity (disc_type : DiscrepancyType) : String :=
  match disc_type with
  | DiscrepancyType.missing_in_rrc => "high"
  | DiscrepancyType.missing_in_uecap => "high"
  | DiscrepancyType.extra_in_rrc => "medium"
  | DiscrepancyType.bcs_mismatch => "medium"
  | DiscrepancyType.pruned_by_efs => "expected"
  | DiscrepancyType.envelope_filtered => "expected"

/-- `ReasoningEngine._apply_heuristics`: the five pattern heuristics in
source order, then the no-explanation fallback with the per-type default
severity. -/
def apply_heuristics (kb : KnowledgeBaseContext) (d : Discrepancy) : ReasoningResult :=
  let combo := d.combo
  let disc_type := d.discrepancy_type
  let nr_bands := (combo.components.filter (fun c => c.is_nr)).map BandComponent.band
  if (nr_bands.any (fun b => decide (257 ≤ b))) &&
      decide (disc_type = DiscrepancyType.missing_in_rrc) then
    { has_explanation := true,
      reason_type := some "heuristic",
      explanation := some "mmWave band combo - may have regional/HW restrictions",
      severity := "low",
      recommended_action := some "Verify mmWave support for target market" }
  else if 14 ∈ combo.components.map BandComponent.band then
    { has_explanation := true,
      reason_type := some "heuristic",
      explanation := some "Band 14 (FirstNet) - US regulatory restriction",
      severity := if kb.active_region ≠ some "NA" then "expected" else "medium",
      recommended_action := some "No action if non-US market" }
  else if 71 ∈ combo.components.map BandComponent.band then
    { has_explanation := true,
      reason_type := some "heuristic",
      explanation := some "Band 71 - often carrier-specific (T-Mobile US)",
      severity := "low",
      recommended_action := some "Verify carrier requirements" }
  else if disc_type = DiscrepancyType.bcs_mismatch then
    { has_explanation := true,
      reason_type := some "heuristic",
      explanation := some "BCS mismatch - may indicate version or configuration difference",
      severity := "medium",
      recommended_action := some "Review BCS configuration in RFC" }
  else if disc_type = DiscrepancyType.extra_in_rrc then
    { has_explanation := true,
      reason_type := some "heuristic",
      explanation :=
        some "Combo in RRC but not RFC - may be dynamically added or from different RFC version",
      severity := "medium",
      recommended_action := some "Verify RFC version matches build" }
  else
    { has_explanation := false,
      reason_type := none,
      explanation := none,
      severity := default_severity disc_type,
      recommended_action := some "Investigate - unexpected discrepancy" }

/-- Combo used in concrete counterexamples/witnesses: LTE CA over band 1A. -/
def combo1A : Combo :=
  { combo_type := ComboType.lte_ca, components := [{ band := 1, band_class := "A" }] }

/-- C3 counterexample: a reason-less MISSING_IN_RRC discrepancy has derived
severity "medium", not the per-type default "high". -/
theorem severity_default_counterexample :
    Discrepancy.severity
      { discrepancy_type := DiscrepancyType.missing_in_rrc, combo := combo1A,
        source_a := DataSource.rfc, source_b := DataSource.rrc_table } = "medium" ∧
    default_severity DiscrepancyType.missing_in_rrc = "high" ∧
    ("medium" : String) ≠ "high" := by
  refine ⟨rfl, rfl, by decide⟩

/-- C3 amended: a reason-less discrepancy's derived severity is always the
literal "medium" regardless of its type; the fixed per-type defaults
(high/high/medium/medium/expected/expected) are the severities the reasoning
engine's no-rule fallback assigns inside the ReasoningResult. -/
theorem severity_medium_when_no_reason :
    (∀ d : Discrepancy, d.reason = none → d.severity = "medium") ∧
    default_severity DiscrepancyType.missing_in_rrc = "high" ∧
    default_severity DiscrepancyType.missing_in_uecap = "high" ∧
    default_severity DiscrepancyType.extra_in_rrc = "medium" ∧
    default_severity DiscrepancyType.bcs_mismatch = "medium" ∧
    default_severity DiscrepancyType.pruned_by_efs = "expected" ∧
    default_severity DiscrepancyType.envelope_filtered = "expected" := by
  refine ⟨?_, rfl, rfl, rfl, rfl, rfl, rfl⟩
  intro d h
  unfold Discrepancy.severity
  rw [h]

/-- Witness for the amended C3 statement at a concrete reason-less
discrepancy. -/
theorem severity_medium_when_no_reason_witness :
    Discrepancy.severity
      { discrepancy_type := DiscrepancyType.extra_in_rrc, combo := combo1A,
        source_a := DataSource.rfc, source_b := DataSource.rrc_table } = "medium" :=
  severity_medium_when_no_reason.1 _ rfl

/-- Combo containing band 14, used for C4. -/
def combo14A : Combo :=
  { combo_type := ComboType.lte_ca, components := [{ band := 14, band_class := "A" }] }

/-- Band-14 discrepancy reaching the heuristics step. -/
def disc14 : Discrepancy :=
  { discrepancy_type := DiscrepancyType.missing_in_rrc, combo := combo14A,
    source_a := DataSource.rfc, source_b := DataSource.rrc_table }

/-- C4 counterexample: the band-14 heuristic returns severity "medium" when
the active region IS "NA" and "expected" otherwise (also when no region is
set) - the reverse of the claim. -/
theorem band14_region_counterexample :
    (apply_heuristics { active_region := some "NA" } disc14).severity = "medium" ∧
    (apply_heuristics { active_region := some "EU" } disc14).severity = "expected" ∧
    (apply_heuristics { active_region := none } disc14).severity = "expected" := by
  refine ⟨rfl, rfl, rfl⟩

/-- C4 amended: for every discrepancy reaching the heuristics step whose
combo contains band 14 and which the mmWave heuristic does not intercept
(that heuristic fires first, on MISSING_IN_RRC discrepancies with an NR band
of 257 or above), the result is an explanation with severity "medium" when
the active region is exactly "NA" and "expected" otherwise. -/
theorem band14_heuristic_severity :
    ∀ (kb : KnowledgeBaseContext) (d : Discrepancy),
      14 ∈ d.combo.components.map BandComponent.band →
      ¬(d.discrepancy_type = DiscrepancyType.missing_in_rrc ∧
        ∃ c ∈ d.combo.components, c.is_nr = true ∧ 257 ≤ c.band) →
      (apply_heuristics kb d).severity =
        (if kb.active_region = some "NA" then "medium" else "expected") ∧
      (apply_heuristics kb d).has_explanation = true := by
  intro kb d h14 hmw
  have hcFalse : ((List.map BandComponent.band
        (List.filter (fun c => c.is_nr) d.combo.components)).any
          (fun b => decide (257 ≤ b)) &&
      decide (d.discrepancy_type = DiscrepancyType.missing_in_rrc)) = false := by
    rw [Bool.eq_false_iff]
    intro hcond
    rw [Bool.and_eq_true] at hcond
    obtain ⟨hany, hty⟩ := hcond
    rw [List.any_eq_true] at hany
    obtain ⟨b, hbmem, hb⟩ := hany
    rw [List.mem_map] at hbmem
    obtain ⟨c, hcmem, rfl⟩ := hbmem
    rw [List.mem_filter] at hcmem
    exact hmw ⟨of_decide_eq_true hty, c, hcmem.1, hcmem.2, of_decide_eq_true hb⟩
  have key : apply_heuristics kb d =
      { has_explanation := true, reason_type := some "heuristic",
        explanation := some "Band 14 (FirstNet) - US regulatory restriction",
        severity := if kb.active_region ≠ some "NA" then "expected" else "medium",
        recommended_action := some "No action if non-US market" } := by
    simp only [apply_heuristics]
    rw [hcFalse, if_neg (show ¬(false = true) by decide), if_pos h14]
  rw [key]
  refine ⟨?_, rfl⟩
  by_cases h : kb.active_region = some "NA"
  · simp [h]
  · simp [h]

/-- Witness for the amended C4 statement at concrete inputs on both sides of
the region test. -/
theorem band14_heuristic_severity_witness :
    (apply_heuristics { active_region := some "NA" } disc14).severity = "medium" ∧
    (apply_heuristics { active_region := some "APAC" } disc14).severity = "expected" := by
  constructor
  · exact ((band14_heuristic_severity { active_region := some "NA" } disc14
      (by decide) (by decide)).1).trans (by decide)
  · exact ((band14_heuristic_severity { active_region := some "APAC" } disc14
      (by decide) (by decide)).1).trans (by decide)

/-- C10: a band restriction with a non-empty region list is treated as
applicable whenever no active region is set; with a present (truthy) active
region it is checked against the region list case-insensitively. -/
theorem restriction_region_check :
    ∀ (kb : KnowledgeBaseContext) (r : BandRestriction),
      r.regions ≠ [] →
      (kb.active_region = none → restriction_applies kb r = true) ∧
      (∀ reg : String, kb.active_region = some reg → reg ≠ "" →
        restriction_applies kb r = decide (strUpper reg ∈ r.regions.map strUpper)) := by
  intro kb r hne
  have hemp : r.regions.isEmpty = false := by
    cases hr : r.regions with
    | nil => exact absurd hr hne
    | cons a l => rfl
  constructor
  · intro h
    unfold restriction_applies
    rw [hemp, if_neg (show ¬(false = true) by decide), h]
  · intro reg hreg hne2
    unfold restriction_applies
    rw [hemp, if_neg (show ¬(false = true) by decide), hreg]
    show (if reg ≠ "" then decide (strUpper reg ∈ r.regions.map strUpper) else true) = _
    rw [if_pos hne2]

/-- Witness for C10 at concrete inputs: a region-restricted band with no
active region applies; with a matching lower-case active region it applies
(case-insensitive); with a different region it does not. -/
theorem restriction_region_check_witness :
    restriction_applies {} { band := 71, restriction_type := "regional",
                             regions := ["APAC"] } = true ∧
    restriction_applies { active_region := some "apac" }
      { band := 71, restriction_type := "regional", regions := ["APAC"] } = true ∧
    restriction_applies { active_region := some "EMEA" }
      { band := 71, restriction_type := "regional", regions := ["APAC"] } = false := by
  refine ⟨?_, ?_, ?_⟩
  · exact (restriction_region_check {}
      { band := 71, restriction_type := "regional", regions := ["APAC"] }
      (by decide)).1 rfl
  · exact ((restriction_region_check { active_region := some "apac" }
      { band := 71, restriction_type := "regional", regions := ["APAC"] }
      (by decide)).2 "apac" rfl (by decide)).trans (by decide)
  · exact ((restriction_region_check { active_region := some "EMEA" }
      { band := 71, restriction_type := "regional", regions := ["APAC"] }
      (by decide)).2 "EMEA" rfl (by decide)).trans (by decide)

/-- Combo `1A-3A` and combo `1A-7A`, used in comparator witnesses. -/
def combo13 : Combo :=
  { combo_type := ComboType.lte_ca,
    components := [{ band := 1, band_class := "A" }, { band := 3, band_class := "A" }] }

/-- Combo `1A-7A`. -/
def combo17 : Combo :=
  { combo_type := ComboType.lte_ca,
    components := [{ band := 1, band_class := "A" }, { band := 7, band_class := "A" }] }

/-- C8: `match_percentage` equals `|common| / (|common|+|only_in_a|+|only_in_b|) * 100`
whenever the denominator is non-zero, equals 100 when it is zero, and
comparing two empty combo sets yields 100. -/
theorem match_percentage_formula :
    (∀ (a b : ComboSet),
      ((compare a b).common.card + (compare a b).only_in_a.card +
          (compare a b).only_in_b.card = 0 →
        (compare a b).match_percentage = 100) ∧
      ((compare a b).common.card + (compare a b).only_in_a.card +
          (compare a b).only_in_b.card ≠ 0 →
        (compare a b).match_percentage =
          ((compare a b).common.card : ℚ) /
            (((compare a b).common.card : ℚ) + ((compare a b).only_in_a.card : ℚ) +
              ((compare a b).only_in_b.card : ℚ)) * 100)) ∧
    (compare { source := DataSource.rfc, combo_type := ComboType.lte_ca }
        { source := DataSource.rrc_table, combo_type := ComboType.lte_ca }).match_percentage =
      100 := by
  constructor
  · intro a b
    constructor
    · intro h
      unfold ComparisonResult.match_percentage
      rw [if_pos h]
    · intro h
      unfold ComparisonResult.match_percentage
      rw [if_neg h]
      push_cast
      ring
  · rfl

/-- The defined-side combo set {1A-3A, 1A-7A} of the spec's
missing-in-runtime-table scenario. -/
def rfcSet2 : ComboSet :=
  { source := DataSource.rfc, combo_type := ComboType.lte_ca,
    combos := [("1A-3A", combo13), ("1A-7A", combo17)] }

/-- The built-side combo set {1A-3A} of the same scenario. -/
def rrcSet1 : ComboSet :=
  { source := DataSource.rrc_table, combo_type := ComboType.lte_ca,
    combos := [("1A-3A", combo13)] }

/-- Witness for C8 at the spec's scenario: two defined combos, one built —
`match_percentage = 50`. -/
theorem match_percentage_formula_witness :
    (compare rfcSet2 rrcSet1).match_percentage = 50 := by
  have h := (match_percentage_formula.1 rfcSet2 rrcSet1).2 (by decide)
  have hc : (compare rfcSet2 rrcSet1).common.card = 1 := by decide
  have ha : (compare rfcSet2 rrcSet1).only_in_a.card = 1 := by decide
  have hb : (compare rfcSet2 rrcSet1).only_in_b.card = 0 := by decide
  rw [h, hc, ha, hb]
  norm_num

/-- C9: a present-but-empty BCS on both sides does not match (the
`None`-matches-anything leniency does not extend to two empty sets), and
`compare` reports a BCS-mismatch discrepancy for such a common combo. -/
theorem empty_bcs_mismatch :
    bcs_matches (some (∅ : Finset ℕ)) (some (∅ : Finset ℕ)) = false ∧
    (∀ (a b : ComboSet) (k : String) (ca cb : Combo),
      a.get k = some ca → b.get k = some cb →
      ca.bcs = some (∅ : Finset ℕ) → cb.bcs = some (∅ : Finset ℕ) →
      ∃ d ∈ (compare a b).bcs_mismatches,
        d.discrepancy_type = DiscrepancyType.bcs_mismatch ∧ d.combo = ca) := by
  constructor
  · rfl
  · intro a b k ca cb hga hgb hca hcb
    have keyOfGet : ∀ (s : ComboSet) (c : Combo), s.get k = some c → k ∈ s.keysList := by
      intro s c hg
      unfold ComboSet.get at hg
      cases hfind : s.combos.find? (fun e => e.1 == k) with
      | none => rw [hfind] at hg; cases hg
      | some e =>
        have hmem := List.mem_of_find?_eq_some hfind
        have hpred := List.find?_some hfind
        have hek : e.1 = k := by
          have := of_decide_eq_true (by simpa using hpred)
          exact this
        unfold ComboSet.keysList
        rw [List.mem_map]
        exact ⟨e, hmem, hek⟩
    have hka : k ∈ a.keysList := keyOfGet a ca hga
    have hkb : k ∈ b.keys := by
      unfold ComboSet.keys
      rw [List.mem_toFinset]
      exact keyOfGet b cb hgb
    have hkc : k ∈ a.keysList.filter (fun k2 => decide (k2 ∈ b.keys)) := by
      rw [List.mem_filter]
      exact ⟨hka, decide_eq_true hkb⟩
    refine ⟨{ discrepancy_type := DiscrepancyType.bcs_mismatch, combo := ca,
              source_a := a.source, source_b := b.source,
              details := some "BCS mismatch" }, ?_, rfl, rfl⟩
    simp only [compare]
    rw [List.mem_filterMap]
    refine ⟨k, hkc, ?_⟩
    rw [hga, hgb]
    dsimp only
    rw [hca, hcb]
    rfl

/-- A combo whose BCS is present but empty, and the witness comparison for
C9: the common combo `1A` with empty BCS on both sides produces a
BCS-mismatch discrepancy. -/
def comboEmptyBcs : Combo :=
  { combo_type := ComboType.lte_ca, components := [{ band := 1, band_class := "A" }],
    bcs := some (∅ : Finset ℕ) }

/-- Witness for C9 at concrete inputs. -/
theorem empty_bcs_mismatch_witness :
    ∃ d ∈ (compare
        { source := DataSource.rfc, combo_type := ComboType.lte_ca,
          combos := [("1A", comboEmptyBcs)] }
        { source := DataSource.rrc_table, combo_type := ComboType.lte_ca,
          combos := [("1A", comboEmptyBcs)] }).bcs_mismatches,
      d.discrepancy_type = DiscrepancyType.bcs_mismatch ∧ d.combo = comboEmptyBcs :=
  empty_bcs_mismatch.2
    { source := DataSource.rfc, combo_type := ComboType.lte_ca,
      combos := [("1A", comboEmptyBcs)] }
    { source := DataSource.rrc_table, combo_type := ComboType.lte_ca,
      combos := [("1A", comboEmptyBcs)] }
    "1A" comboEmptyBcs comboEmptyBcs rfl rfl rfl rfl

/-! ## Sorting helper lemmas for the canonical-key proofs -/

/-- `orderedInsert` commutes with a map that preserves the comparison. -/
theorem orderedInsertMapCongr {α β : Type} (r : α → α → Prop) (s : β → β → Prop)
    [DecidableRel r] [DecidableRel s] (f : α → β)
    (h : ∀ a b : α, r a b ↔ s (f a) (f b)) (x : α) :
    ∀ l : List α, (l.map f).orderedInsert s (f x) = (l.orderedInsert r x).map f := by
  intro l
  induction l with
  | nil => rfl
  | cons y ys ih =>
    by_cases hr : r x y
    · simp only [List.map, List.orderedInsert, if_pos hr, if_pos ((h x y).mp hr)]
    · simp only [List.map, List.orderedInsert, if_neg hr,
        if_neg (fun hs => hr ((h x y).mpr hs)), ih]

/-- `insertionSort` commutes with a map that preserves the comparison. -/
theorem insertionSortMapCongr {α β : Type} (r : α → α → Prop) (s : β → β → Prop)
    [DecidableRel r] [DecidableRel s] (f : α → β)
    (h : ∀ a b : α, r a b ↔ s (f a) (f b)) :
    ∀ l : List α, (l.map f).insertionSort s = (l.insertionSort r).map f := by
  intro l
  induction l with
  | nil => rfl
  | cons y ys ih =>
    simp only [List.map, List.insertionSort, ih,
      orderedInsertMapCongr r s f h y (ys.insertionSort r)]

/-- Combo listing the component 1A twice, for the C5 counterexample. -/
def comboDup : Combo :=
  { combo_type := ComboType.lte_ca,
    components := [{ band := 1, band_class := "A" }, { band := 1, band_class := "A" }] }

/-- C5 counterexample: `comboDup` (1A listed twice) and `combo1A` have equal
canonical keys after normalization (deduplication), yet `Combo.__eq__` is
false, because `normalized_key` — the key `__eq__` actually compares — sorts
but does NOT deduplicate. -/
theorem combo_eq_dedup_counterexample :
    get_canonical_key comboDup = get_canonical_key combo1A ∧
    Combo.eq comboDup combo1A = false ∧
    comboDup.normalized_key = "1A-1A" ∧
    combo1A.normalized_key = "1A" := by
  refine ⟨rfl, rfl, rfl, rfl⟩

/-- C5 amended: combo equality holds iff the combos' `normalized_key`s are
equal, where `normalized_key` sorts components LTE-first then NR ascending
by band then band class but does NOT remove duplicates (deduplication
happens only in the normalizer's canonical key); MIMO layer count and BCS
remain outside the identity; the duplicate-listing combo equals the
single-listing combo only under the normalizer's `combos_equivalent`, not
under `__eq__`. -/
theorem combo_eq_normalized_key :
    (∀ a b : Combo, Combo.eq a b = true ↔ a.normalized_key = b.normalized_key) ∧
    (∀ (a b : Combo) (s1 s2 : Option (Finset ℕ)),
      Combo.eq { a with bcs := s1 } { b with bcs := s2 } = Combo.eq a b) ∧
    (∀ (c : Combo) (m : Option ℕ),
      Combo.normalized_key
        { c with components :=
            c.components.map (fun comp => { comp with mimo_layers := m }) } =
        c.normalized_key) ∧
    (combos_equivalent comboDup combo1A = true ∧ Combo.eq comboDup combo1A = false) := by
  refine ⟨?_, ?_, ?_, rfl, rfl⟩
  · intro a b
    unfold Combo.eq
    exact beq_iff_eq
  · intro a b s1 s2
    rfl
  · intro c m
    unfold Combo.normalized_key
    dsimp only
    rw [insertionSortMapCongr componentLe componentLe
      (fun comp => { comp with mimo_layers := m }) (fun _ _ => Iff.rfl) c.components]
    rw [List.map_map]
    rfl

/-! ## Normalization idempotence and key permutation-invariance (C7) -/

/-- ASCII upper-casing is idempotent. -/
theorem charToUpper_idem (c : Char) : c.toUpper.toUpper = c.toUpper := by
  by_cases h : 97 ≤ c.toNat ∧ c.toNat ≤ 122
  · have h1 : c.toUpper = Char.ofNat (c.toNat - 32) := by
      unfold Char.toUpper
      rw [if_pos h]
    rw [h1]
    have hv : (Char.ofNat (c.toNat - 32)).toNat = c.toNat - 32 := by
      obtain ⟨n, hn⟩ : ∃ n, c.toNat - 32 = n := ⟨_, rfl⟩
      have h65 : 65 ≤ n := by omega
      have h90 : n ≤ 90 := by omega
      rw [hn]
      interval_cases n <;> decide
    unfold Char.toUpper
    rw [if_neg]
    rw [hv]
    omega
  · have h1 : c.toUpper = c := by
      unfold Char.toUpper
      rw [if_neg h]
    rw [h1]
    exact h1

/-- `strUpper` is idempotent. -/
theorem strUpper_idem (s : String) : strUpper (strUpper s) = strUpper s := by
  show String.mk (List.map Char.toUpper (List.map Char.toUpper s.data)) =
    String.mk (List.map Char.toUpper s.data)
  rw [List.map_map]
  have : ∀ l : List Char, l.map (Char.toUpper ∘ Char.toUpper) = l.map Char.toUpper := by
    intro l
    induction l with
    | nil => rfl
    | cons x xs ih => simp only [List.map_cons, Function.comp, charToUpper_idem x, ih]
  rw [this]

/-- The dedup key `(band, band_class, is_nr)` used by the normalizer loop. -/
def compKeyOf (c : BandComponent) : ℕ × String × Bool :=
  (c.band, c.band_class, c.is_nr)

/-- Every component produced by the normalizer loop has an upper-case-fixed
band class. -/
theorem nc_upper_fixed : ∀ (l : List BandComponent) (seen : List (ℕ × String × Bool)),
    ∀ c ∈ normalizeComponents l seen, strUpper c.band_class = c.band_class := by
  intro l
  induction l with
  | nil =>
    intro seen c hc
    cases hc
  | cons x xs ih =>
    intro seen c hc
    simp only [normalizeComponents] at hc
    by_cases hk : (x.band, strUpper x.band_class, x.is_nr) ∈ seen
    · rw [if_pos hk] at hc
      exact ih seen c hc
    · rw [if_neg hk] at hc
      rcases List.mem_cons.mp hc with rfl | h
      · exact strUpper_idem x.band_class
      · exact ih _ c h

/-- The normalizer loop's output keys are duplicate-free and disjoint from
the seen set. -/
theorem nc_key_nodup_notin : ∀ (l : List BandComponent) (seen : List (ℕ × String × Bool)),
    ((normalizeComponents l seen).map compKeyOf).Nodup ∧
    ∀ k ∈ (normalizeComponents l seen).map compKeyOf, k ∉ seen := by
  intro l
  induction l with
  | nil =>
    intro seen
    exact ⟨List.nodup_nil, fun k hk => absurd hk (List.not_mem_nil k)⟩
  | cons x xs ih =>
    intro seen
    simp only [normalizeComponents]
    by_cases hk : (x.band, strUpper x.band_class, x.is_nr) ∈ seen
    · rw [if_pos hk]
      exact ih seen
    · rw [if_neg hk]
      obtain ⟨ihn, ihs⟩ := ih ((x.band, strUpper x.band_class, x.is_nr) :: seen)
      refine ⟨?_, ?_⟩
      · rw [List.map_cons]
        refine List.nodup_cons.mpr ⟨?_, ihn⟩
        intro hmem
        exact (ihs _ hmem) (List.mem_cons_self _ _)
      · intro k hk2
        rw [List.map_cons] at hk2
        rcases List.mem_cons.mp hk2 with rfl | h
        · exact hk
        · intro hks
          exact (ihs k h) (List.mem_cons_of_mem _ hks)

/-- The normalizer loop is the identity on lists that are already
upper-case-fixed and key-duplicate-free with keys disjoint from the seen
set. -/
theorem nc_fixpoint : ∀ (l : List BandComponent) (seen : List (ℕ × String × Bool)),
    (∀ c ∈ l, strUpper c.band_class = c.band_class) →
    ((l.map compKeyOf).Nodup) →
    (∀ c ∈ l, compKeyOf c ∉ seen) →
    normalizeComponents l seen = l := by
  intro l
  induction l with
  | nil => intro seen _ _ _; rfl
  | cons x xs ih =>
    intro seen hu hnd hns
    simp only [normalizeComponents]
    have hux : strUpper x.band_class = x.band_class := hu x (List.mem_cons_self x xs)
    rw [hux]
    rw [if_neg (show (x.band, x.band_class, x.is_nr) ∈ seen → False from
      hns x (List.mem_cons_self x xs))]
    show _ :: _ = _ :: _
    congr 1
    rw [List.map_cons] at hnd
    have hnd2 := List.nodup_cons.mp hnd
    refine ih _ (fun c hc => hu c (List.mem_cons_of_mem x hc)) hnd2.2 ?_
    intro c hc
    intro hmem
    rcases List.mem_cons.mp hmem with heq | hin
    · refine hnd2.1 ?_
      rw [show compKeyOf x = (x.band, x.band_class, x.is_nr) from rfl, ← heq]
      exact List.mem_map_of_mem compKeyOf hc
    · exact hns c (List.mem_cons_of_mem x hc) hin

/-- Key-set characterization of the normalizer loop's output. -/
theorem nc_key_mem : ∀ (l : List BandComponent) (seen : List (ℕ × String × Bool))
    (k : ℕ × String × Bool),
    k ∈ (normalizeComponents l seen).map compKeyOf ↔
      (k ∈ l.map (fun c => (c.band, strUpper c.band_class, c.is_nr)) ∧ k ∉ seen) := by
  intro l
  induction l with
  | nil =>
    intro seen k
    simp [normalizeComponents]
  | cons x xs ih =>
    intro seen k
    simp only [normalizeComponents, List.map_cons]
    by_cases hk : (x.band, strUpper x.band_class, x.is_nr) ∈ seen
    · rw [if_pos hk, ih]
      constructor
      · rintro ⟨hm, hs⟩
        exact ⟨List.mem_cons_of_mem _ hm, hs⟩
      · rintro ⟨hm, hs⟩
        rcases List.mem_cons.mp hm with rfl | hm2
        · exact absurd hk hs
        · exact ⟨hm2, hs⟩
    · rw [if_neg hk, List.map_cons]
      constructor
      · intro h
        rcases List.mem_cons.mp h with rfl | hmem
        · exact ⟨List.mem_cons_self _ _, hk⟩
        · obtain ⟨hm, hs⟩ := (ih _ k).mp hmem
          exact ⟨List.mem_cons_of_mem _ hm,
            fun hss => hs (List.mem_cons_of_mem _ hss)⟩
      · rintro ⟨hm, hs⟩
        rcases List.mem_cons.mp hm with rfl | hm2
        · exact List.mem_cons_self _ _
        · by_cases hkt : k = (x.band, strUpper x.band_class, x.is_nr)
          · rw [hkt]
            exact List.mem_cons_self _ _
          · refine List.mem_cons_of_mem _ ((ih _ k).mpr ⟨hm2, ?_⟩)
            intro hmem2
            rcases List.mem_cons.mp hmem2 with h2 | h2
            · exact hkt h2
            · exact hs h2

/-- Shuffle from the dedup-key arrangement `(band, class, is_nr)` to the
sort-key arrangement `(is_nr, band, class)`. -/
def keyToSortKey (k : ℕ × String × Bool) : Bool × ℕ × String :=
  (k.2.2, k.1, k.2.1)

theorem keyToSortKey_injective : Function.Injective keyToSortKey := by
  intro a b h
  rcases a with ⟨a1, a2, a3⟩
  rcases b with ⟨b1, b2, b3⟩
  simp only [keyToSortKey, Prod.mk.injEq] at h
  obtain ⟨h3, h1, h2⟩ := h
  rw [h1, h2, h3]

/-- C7: normalization is idempotent, and the canonical key is invariant
under any permutation of a combo's input component order. -/
theorem normalize_idempotent_key_perm_invariant :
    (∀ c : Combo, normalize_combo (normalize_combo c) = normalize_combo c) ∧
    (∀ (c : Combo) (l : List BandComponent), l.Perm c.components →
      get_canonical_key { c with components := l } = get_canonical_key c) := by
  constructor
  · intro c
    unfold normalize_combo
    dsimp only
    congr 1
    have hfix : normalizeComponents
        ((normalizeComponents c.components []).insertionSort componentLe) [] =
        (normalizeComponents c.components []).insertionSort componentLe := by
      apply nc_fixpoint
      · intro x hx
        exact nc_upper_fixed c.components [] x ((List.mem_insertionSort componentLe).mp hx)
      · have hperm : List.Perm
            (((normalizeComponents c.components []).insertionSort componentLe).map compKeyOf)
            ((normalizeComponents c.components []).map compKeyOf) :=
          (List.perm_insertionSort componentLe _).map compKeyOf
        exact hperm.nodup_iff.mpr (nc_key_nodup_notin c.components []).1
      · intro x _ hmem
        exact absurd hmem (List.not_mem_nil _)
    rw [hfix]
    exact List.Sorted.insertionSort_eq (List.sorted_insertionSort componentLe _)
  · intro c l hperm
    unfold get_canonical_key normalize_combo Combo.normalized_key
    dsimp only
    have hsort : ∀ X : List BandComponent,
        (X.insertionSort componentLe).insertionSort componentLe =
          X.insertionSort componentLe :=
      fun X => List.Sorted.insertionSort_eq (List.sorted_insertionSort componentLe X)
    rw [hsort, hsort]
    suffices h : ((normalizeComponents l []).insertionSort componentLe).map
          BandComponent.str =
        ((normalizeComponents c.components []).insertionSort componentLe).map
          BandComponent.str by
      rw [h]
    have hstr : ∀ L : List BandComponent,
        L.map BandComponent.str =
          (L.map BandComponent.sortKey).map
            (fun k : Bool × ℕ × String =>
              (if k.1 then "n" else "") ++ toString k.2.1 ++ k.2.2) := by
      intro L
      rw [List.map_map]
      rfl
    rw [hstr, hstr]
    suffices h2 : ((normalizeComponents l []).insertionSort componentLe).map
          BandComponent.sortKey =
        ((normalizeComponents c.components []).insertionSort componentLe).map
          BandComponent.sortKey by
      rw [h2]
    rw [← insertionSortMapCongr componentLe tupLe BandComponent.sortKey
        (fun _ _ => Iff.rfl),
      ← insertionSortMapCongr componentLe tupLe BandComponent.sortKey
        (fun _ _ => Iff.rfl)]
    have hmm : ∀ W : List BandComponent,
        W.map BandComponent.sortKey = (W.map compKeyOf).map keyToSortKey := by
      intro W
      rw [List.map_map]
      rfl
    have p1 : ((normalizeComponents l []).map compKeyOf).Perm
        ((normalizeComponents c.components []).map compKeyOf) := by
      refine (List.perm_ext_iff_of_nodup (nc_key_nodup_notin l []).1
        (nc_key_nodup_notin c.components []).1).mpr ?_
      intro k
      rw [nc_key_mem l [] k, nc_key_mem c.components [] k]
      simp only [List.not_mem_nil, not_false_iff, and_true]
      exact (hperm.map (fun c => (c.band, strUpper c.band_class, c.is_nr))).mem_iff
    have base : ((normalizeComponents l []).map BandComponent.sortKey).Perm
        ((normalizeComponents c.components []).map BandComponent.sortKey) := by
      rw [hmm, hmm]
      exact p1.map keyToSortKey
    exact List.eq_of_perm_of_sorted
      ((List.perm_insertionSort tupLe _).trans
        (base.trans (List.perm_insertionSort tupLe _).symm))
      (List.sorted_insertionSort tupLe _)
      (List.sorted_insertionSort tupLe _)

/-- Witness for the permutation part of C7 at a concrete input: swapping the
two components of a combo leaves the canonical key unchanged. -/
theorem normalize_idempotent_key_perm_invariant_witness :
    get_canonical_key
      { combo_type := ComboType.lte_ca,
        components := [{ band := 3, band_class := "A" }, { band := 1, band_class := "A" }] } =
      get_canonical_key combo13 :=
  normalize_idempotent_key_perm_invariant.2 combo13
    [{ band := 3, band_class := "A" }, { band := 1, band_class := "A" }] (by decide)

end LogAnalysis
